import Mathlib

/-!
Verification of the audio-to-visual mapping core and the playback/capture
controller of the `AudioVisuializer` repository (single source file
`src/pages/FrequencyBars.jsx`).

The per-frame mapping functions (`BarVisualizer`, `LinearBarVisualizer`,
`SphereVisualizer`, `WaveVisualizer`) and the controller logic
(`cleanupAudio`, `initAudioContext`, `handleFileChange`, `handleMicInput`,
`handleSystemAudio`) are translated here as executable Lean functions.
JavaScript numbers are modelled exactly over `ℚ`; `Math.floor` on the
non-negative quantities used by the code is `jsFloorNat`; `Math.cos`,
`Math.sin` and `Math.PI` (used only for geometric placement, never for any
claim-relevant quantity) are passed as abstract parameters so every
definition stays executable.  Browser side effects (pausing an element,
revoking an object URL, stopping media tracks, closing/creating an audio
context) are recorded as an ordered event trace.
-/

namespace AudioVis

/-- `Math.floor` on a non-negative JS number, returned as a `ℕ`
(the code only floors non-negative quantities, used as array indices). -/
def jsFloorNat (q : ℚ) : ℕ := (⌊q⌋).toNat

/-- JS `x % 1` for a non-negative `x` (used for the sphere hue cycling on
`state.clock.elapsedTime`, which is non-negative). -/
def fract (q : ℚ) : ℚ := q - ⌊q⌋

/-- `THREE.MathUtils.lerp(x, y, t) = x + (y - x) * t`. -/
def lerp (x y t : ℚ) : ℚ := x + (y - x) * t

/-- Repeated frames of `v = lerp(v, target, f)` starting from `x`. -/
def smoothIterate (f target : ℚ) : ℕ → ℚ → ℚ
  | 0, x => x
  | n + 1, x => lerp (smoothIterate f target n x) target f

/-- Lerp factor of the radial bars (`FrequencyBars.jsx` line 78). -/
def barLerpFactor : ℚ := 15 / 100

/-- Lerp factor of the linear bars (`FrequencyBars.jsx` line 287). -/
def linearLerpFactor : ℚ := 2 / 10

/-- Lerp factor of the sphere axes (`FrequencyBars.jsx` lines 148-150). -/
def sphereLerpFactor : ℚ := 2 / 10

/-- The `AnalyserNode` configuration visible to the code: `fftSize` and
`smoothingTimeConstant` (set in `initAudioContext`). -/
structure Analyser where
  fftSize : ℕ
  smoothingTimeConstant : ℚ
  deriving DecidableEq

/-- Web Audio: `frequencyBinCount` is half of `fftSize`. -/
def Analyser.frequencyBinCount (a : Analyser) : ℕ := a.fftSize / 2

/-- The analyser created by `initAudioContext`: `fftSize = 256`,
`smoothingTimeConstant = 0.8`. -/
def newAnalyser : Analyser := { fftSize := 256, smoothingTimeConstant := 8 / 10 }

/-- One frame's worth of readable analyser data: `getByteFrequencyData`
fills a buffer of length `frequencyBinCount` and `getByteTimeDomainData`
fills a buffer of length `fftSize`, with byte values `0..255`. -/
structure AnalyserFrame where
  freqData : List ℕ
  timeData : List ℕ

/-- Mutable per-mesh visual attributes touched by the frame loops:
scale, position, rotation, material color HSL and emissive HSL. -/
structure MeshState where
  scaleX : ℚ
  scaleY : ℚ
  scaleZ : ℚ
  posX : ℚ
  posY : ℚ
  posZ : ℚ
  rotX : ℚ
  rotY : ℚ
  rotZ : ℚ
  colorH : ℚ
  colorS : ℚ
  colorL : ℚ
  emissiveH : ℚ
  emissiveS : ℚ
  emissiveL : ℚ
  deriving DecidableEq

/-- Scene of the radial `BarVisualizer`: the rotating group and its bars. -/
structure BarsScene where
  rotationY : ℚ
  bars : List MeshState
  deriving DecidableEq

/-- Scene of the `LinearBarVisualizer`. -/
structure LinearScene where
  bars : List MeshState
  deriving DecidableEq

/-- Scene of the `WaveVisualizer`: the rotating group and its particles. -/
structure WaveScene where
  rotationY : ℚ
  particles : List MeshState
  deriving DecidableEq

/-- `barCount = 64` in `BarVisualizer`. -/
def barCount : ℕ := 64

/-- Radial-bar sample index: `Math.floor((i / barCount) * (dataArray.length / 2))`. -/
def barSampleIndex (i len : ℕ) : ℕ :=
  jsFloorNat ((i : ℚ) / (barCount : ℚ) * ((len : ℚ) / 2))

/-- Radial-bar target scale: `Math.max(0.4, (frequencyValue / 255) * 8)`,
then `Math.max(targetScale, 12)` when the bar is the hovered one. -/
def barTargetScale (frequencyValue : ℚ) (isHovered : Bool) : ℚ :=
  let targetScale := max (4 / 10) (frequencyValue / 255 * 8)
  if isHovered then max targetScale 12 else targetScale

/-- Per-bar body of the `BarVisualizer` frame callback (lines 59-92). -/
def barUpdate (dataArray : List ℕ) (hovered : Option ℕ) (i : ℕ) (bar : MeshState) :
    MeshState :=
  let index := barSampleIndex i dataArray.length
  let frequencyValue : ℚ := (dataArray.getD index 0 : ℚ)
  let isHovered : Bool := hovered == some i
  let targetScale := barTargetScale frequencyValue isHovered
  let hue : ℚ := if isHovered then 6 / 10 else 1 / 2 + frequencyValue / 255 * (4 / 10)
  let lightness : ℚ := if isHovered then 1 else 3 / 10 + frequencyValue / 255 * (4 / 10)
  { bar with
    scaleY := lerp bar.scaleY targetScale barLerpFactor
    colorH := hue
    colorS := 9 / 10
    colorL := lightness
    emissiveH := hue
    emissiveS := if isHovered then 1 else 8 / 10
    emissiveL := if isHovered then 8 / 10 else 1 / 2 }

/-- `BarVisualizer`'s `useFrame` callback.  `if (!analyzer) return;` guards
the whole body; otherwise the group rotates by `-0.002` and every bar is
updated from the frequency buffer. -/
def barVisualizerFrame (analyzer : Option AnalyserFrame) (hovered : Option ℕ)
    (scene : BarsScene) : Except String BarsScene :=
  match analyzer with
  | none => Except.ok scene
  | some a =>
      Except.ok
        { rotationY := scene.rotationY - 2 / 1000
          bars := scene.bars.mapIdx fun i bar => barUpdate a.freqData hovered i bar }

/-- `barCount = 48` in `LinearBarVisualizer`. -/
def linearBarCount : ℕ := 48

/-- Linear-bar sample index:
`Math.floor((i / barCount) * (dataArray.length * 0.8))`. -/
def linearSampleIndex (i len : ℕ) : ℕ :=
  jsFloorNat ((i : ℚ) / (linearBarCount : ℚ) * ((len : ℚ) * (8 / 10)))

/-- Linear-bar target height: `Math.max(0.2, (frequencyValue / 255) * 14)`,
then `Math.max(targetHeight, 15)` when hovered. -/
def linearTargetHeight (frequencyValue : ℚ) (isHovered : Bool) : ℚ :=
  let targetHeight := max (2 / 10) (frequencyValue / 255 * 14)
  if isHovered then max targetHeight 15 else targetHeight

/-- Per-bar body of the `LinearBarVisualizer` frame callback (lines 271-299). -/
def linearBarUpdate (dataArray : List ℕ) (hovered : Option ℕ) (i : ℕ)
    (bar : MeshState) : MeshState :=
  let index := linearSampleIndex i dataArray.length
  let frequencyValue : ℚ := (dataArray.getD index 0 : ℚ)
  let isHovered : Bool := hovered == some i
  let targetHeight := linearTargetHeight frequencyValue isHovered
  let newScaleY := lerp bar.scaleY targetHeight linearLerpFactor
  let hue : ℚ := 6 / 10 - frequencyValue / 255 * (15 / 100)
  let lightness : ℚ := if isHovered then 1 else 4 / 10 + frequencyValue / 255 * (6 / 10)
  { bar with
    scaleY := newScaleY
    posY := newScaleY / 2
    colorH := hue
    colorS := 9 / 10
    colorL := lightness
    emissiveH := hue
    emissiveS := 8 / 10
    emissiveL := 1 / 2 }

/-- `LinearBarVisualizer`'s `useFrame` callback, guarded by
`if (!analyzer) return;`. -/
def linearBarVisualizerFrame (analyzer : Option AnalyserFrame) (hovered : Option ℕ)
    (scene : LinearScene) : Except String LinearScene :=
  match analyzer with
  | none => Except.ok scene
  | some a =>
      Except.ok { bars := scene.bars.mapIdx fun i bar => linearBarUpdate a.freqData hovered i bar }

/-- `SphereVisualizer`'s `useFrame` callback, guarded by
`if (!analyzer || !meshRef.current) return;` (the mesh is always mounted
here, so the analyser test is the live guard). -/
def sphereVisualizerFrame (analyzer : Option AnalyserFrame) (elapsedTime : ℚ)
    (isHovered : Bool) (mesh : MeshState) : Except String MeshState :=
  match analyzer with
  | none => Except.ok mesh
  | some a =>
      let sum : ℚ := ((List.range 16).map fun i => (a.freqData.getD i 0 : ℚ)).sum
      let average := sum / 16
      let scaleBase := 1 + average / 255 * (5 / 2)
      let targetScale := if isHovered then scaleBase * (3 / 2) else scaleBase
      let hue := fract (elapsedTime * (5 / 100))
      let lightness : ℚ := if isHovered then 8 / 10 else 1 / 2
      Except.ok
        { mesh with
          scaleX := lerp mesh.scaleX targetScale sphereLerpFactor
          scaleY := lerp mesh.scaleY targetScale sphereLerpFactor
          scaleZ := lerp mesh.scaleZ targetScale sphereLerpFactor
          rotX := mesh.rotX + 5 / 1000
          rotY := mesh.rotY + 5 / 1000
          colorH := hue
          colorS := 7 / 10
          colorL := lightness
          emissiveH := hue
          emissiveS := 8 / 10
          emissiveL := 1 / 2 + average / 255 * (1 / 2) }

/-- `count = 128` in `WaveVisualizer`. -/
def waveCount : ℕ := 128

/-- `radius = 10` in `WaveVisualizer`. -/
def waveRadius : ℚ := 10

/-- Wave displacement before hover: `((value - 128) / 128) * 6`. -/
def waveDisplacement (value : ℚ) : ℚ := (value - 128) / 128 * 6

/-- Per-particle body of the `WaveVisualizer` frame callback (lines 194-223).
`cosq`, `sinq` and `piq` stand for `Math.cos`, `Math.sin` and `Math.PI`;
they only place the particle on its circle. -/
def waveParticleUpdate (cosq sinq : ℚ → ℚ) (piq : ℚ) (dataArray : List ℕ)
    (hovered : Option ℕ) (i : ℕ) (mesh : MeshState) : MeshState :=
  let index := jsFloorNat ((i : ℚ) / (waveCount : ℚ) * (dataArray.length : ℚ))
  let value : ℚ := (dataArray.getD index 0 : ℚ)
  let isHovered : Bool := hovered == some i
  let displacement := waveDisplacement value + (if isHovered then 5 else 0)
  let angle := (i : ℚ) / (waveCount : ℚ) * piq * 2
  let r := waveRadius + displacement
  let intensity := |displacement| / 4
  let scalar : ℚ := if isHovered then 4 / 10 + intensity else 2 / 10 + intensity
  { mesh with
    posX := cosq angle * r
    posZ := sinq angle * r
    posY := displacement * (3 / 2)
    colorH := 6 / 10 + intensity
    colorS := 1
    colorL := if isHovered then 1 else 1 / 2
    scaleX := scalar
    scaleY := scalar
    scaleZ := scalar
    emissiveH := 6 / 10 + intensity
    emissiveS := 8 / 10
    emissiveL := 1 / 2 }

/-- `WaveVisualizer`'s `useFrame` callback, guarded by
`if (!analyzer) return;`; reads the time-domain buffer, updates every
particle, then rotates the group by `+0.002`. -/
def waveVisualizerFrame (cosq sinq : ℚ → ℚ) (piq : ℚ)
    (analyzer : Option AnalyserFrame) (hovered : Option ℕ)
    (scene : WaveScene) : Except String WaveScene :=
  match analyzer with
  | none => Except.ok scene
  | some a =>
      Except.ok
        { particles :=
            scene.particles.mapIdx fun i m =>
              waveParticleUpdate cosq sinq piq a.timeData hovered i m
          rotationY := scene.rotationY + 2 / 1000 }

/-- A captured media track (microphone or display capture). -/
structure MediaTrack where
  id : ℕ
  deriving DecidableEq

/-- A `MediaStream`: its audio tracks and video tracks. -/
structure MediaStream where
  audioTracks : List MediaTrack
  videoTracks : List MediaTrack
  deriving DecidableEq

/-- `stream.getTracks()`: every track of the stream. -/
def MediaStream.getTracks (s : MediaStream) : List MediaTrack :=
  s.audioTracks ++ s.videoTracks

/-- The `<audio>` element held in `audioElementRef`; only its `src` matters
to the cleanup logic. -/
structure AudioElem where
  src : String
  deriving DecidableEq

/-- A file picked in the file input. -/
structure AudioFile where
  name : String
  deriving DecidableEq

/-- `URL.createObjectURL(file)`: a fresh temporary `blob:` URL. -/
def createObjectURL (f : AudioFile) : String := "blob:" ++ f.name

/-- `file.name.replace(/\.[^/.]+$/, "")`: drop a final dot-extension made of
one or more characters none of which is a dot or a slash. -/
def stripFileExtension (name : String) : String :=
  let rev := name.data.reverse
  let ext := rev.takeWhile fun c => !(c == '.' || c == '/')
  match rev.drop ext.length with
  | '.' :: rest => if ext.isEmpty then name else String.mk rest.reverse
  | _ => name

/-- `inputMode`: `'file'`, `'mic'` or `'system'`. -/
inductive InputMode where
  | file
  | mic
  | system
  deriving DecidableEq

/-- `visualizerMode`: `'bars'`, `'linear'`, `'sphere'` or `'wave'`. -/
inductive VisualizerMode where
  | bars
  | linear
  | sphere
  | wave
  deriving DecidableEq

/-- Browser side effects performed by the controller, in order. -/
inductive Event where
  | pauseAudio (src : String)
  | revokeObjectURL (url : String)
  | stopTrack (t : MediaTrack)
  | closeContext
  | createContext
  | createAnalyser
  | connectSource
  | alertUser (msg : String)
  deriving DecidableEq

/-- Teardown side effects: the four effects `cleanupAudio` can perform
(pause, revoke, stop a track, close the context). -/
def isTeardownEvent : Event → Bool
  | Event.pauseAudio _ => true
  | Event.revokeObjectURL _ => true
  | Event.stopTrack _ => true
  | Event.closeContext => true
  | _ => false

/-- Construction side effects: creating the audio context or the analyser. -/
def isConstructEvent : Event → Bool
  | Event.createContext => true
  | Event.createAnalyser => true
  | _ => false

/-- No teardown effect occurs at or after the first construction effect:
from the first construction event on, every event is a non-teardown one. -/
def teardownPrecedesConstruction (tr : List Event) : Bool :=
  (tr.dropWhile fun e => !isConstructEvent e).all fun e => !isTeardownEvent e

/-- React state and refs of `AudioVisualizer` that the handlers touch. -/
structure ControllerState where
  analyzer : Option Analyser
  isPlaying : Bool
  duration : ℚ
  currentTime : ℚ
  inputMode : InputMode
  fileName : Option String
  isMicActive : Bool
  isSystemActive : Bool
  visualizerMode : VisualizerMode
  audioContextRef : Option Unit
  audioElementRef : Option AudioElem
  mediaStreamRef : Option MediaStream
  deriving DecidableEq

/-- The side effects `cleanupAudio` performs, in source order: pause the
audio element and revoke its URL when it is a `blob:` URL, stop every track
of the media stream, close the audio context — each step only when the
corresponding ref is non-null. -/
def cleanupEvents (s : ControllerState) : List Event :=
  (match s.audioElementRef with
   | some a =>
       Event.pauseAudio a.src ::
         (if a.src.startsWith "blob:" then [Event.revokeObjectURL a.src] else [])
   | none => []) ++
  (match s.mediaStreamRef with
   | some m => m.getTracks.map Event.stopTrack
   | none => []) ++
  (match s.audioContextRef with
   | some _ => [Event.closeContext]
   | none => [])

/-- `cleanupAudio` (lines 347-372): clears the three activity flags, then
performs the teardown effects above and nulls the three refs.  The
`analyzer` React state is not touched. -/
def cleanupAudio (s : ControllerState) : ControllerState × List Event :=
  ({ s with
      isPlaying := false
      isMicActive := false
      isSystemActive := false
      audioElementRef := none
      mediaStreamRef := none
      audioContextRef := none },
   cleanupEvents s)

/-- `initAudioContext` (lines 382-393): creates a new audio context and an
analyser with `fftSize = 256`, `smoothingTimeConstant = 0.8`, and stores
both. -/
def initAudioContext (s : ControllerState) : ControllerState × Analyser × List Event :=
  ({ s with audioContextRef := some (), analyzer := some newAnalyser },
   newAnalyser,
   [Event.createContext, Event.createAnalyser])

/-- `handleFileChange` (lines 396-422): with no file selected it returns at
once; otherwise it tears down the previous source, creates the new context
and analyser, stores the stripped file name, builds an audio element on a
fresh `blob:` URL and connects it through the analyser. -/
def handleFileChange (file : Option AudioFile) (s : ControllerState) :
    ControllerState × List Event :=
  match file with
  | none => (s, [])
  | some f =>
      let c := cleanupAudio s
      let i := initAudioContext c.1
      let s2 :=
        { i.1 with
            fileName := some (stripFileExtension f.name)
            inputMode := InputMode.file
            audioElementRef := some { src := createObjectURL f } }
      (s2, c.2 ++ i.2.2 ++ [Event.connectSource])

/-- `handleMicInput` (lines 425-447): tears down the previous source and
sets the name and mode, then awaits `getUserMedia` (its outcome is the
`micResult` parameter).  On success it stores the stream, marks the mic
active, creates the context and analyser and connects the stream; on
denial it only alerts the user. -/
def handleMicInput (micResult : Except String MediaStream) (s : ControllerState) :
    ControllerState × List Event :=
  let c := cleanupAudio s
  let s1 := { c.1 with fileName := some "Live Microphone Input", inputMode := InputMode.mic }
  match micResult with
  | Except.error _ =>
      (s1, c.2 ++ [Event.alertUser "Microphone access denied. Please check permission."])
  | Except.ok stream =>
      let s2 := { s1 with mediaStreamRef := some stream, isMicActive := true }
      let i := initAudioContext s2
      (i.1, c.2 ++ i.2.2 ++ [Event.connectSource])

/-- The alert shown when a display capture carries no audio track. -/
def noAudioSharedMsg : String :=
  "No audio shared! Please check the Share system audio box in the browser window."

/-- `handleSystemAudio` (lines 450-487): tears down the previous source,
then awaits `getDisplayMedia` (outcome in `displayResult`).  A granted
stream with zero audio tracks is rejected: alert, stop every captured
track, return.  Otherwise the stream is stored and the context, analyser
and connection are created.  Denial only logs. -/
def handleSystemAudio (displayResult : Except String MediaStream)
    (s : ControllerState) : ControllerState × List Event :=
  let c := cleanupAudio s
  match displayResult with
  | Except.error _ => (c.1, c.2)
  | Except.ok stream =>
      if stream.audioTracks.length = 0 then
        (c.1,
         c.2 ++ [Event.alertUser noAudioSharedMsg] ++ stream.getTracks.map Event.stopTrack)
      else
        let s1 :=
          { c.1 with
              fileName := some "System Audio (Screen Share)"
              inputMode := InputMode.system
              isSystemActive := true
              mediaStreamRef := some stream }
        let i := initAudioContext s1
        (i.1, c.2 ++ i.2.2 ++ [Event.connectSource])

/-- What the 3D layer renders (JSX lines 680-701): the active visualizer of
the current mode when `analyzer` is non-null, the idle placeholder mesh
when it is null. -/
inductive RenderedScene where
  | idlePlaceholder
  | visualizer (mode : VisualizerMode)
  deriving DecidableEq

/-- The scene-selection logic of the JSX: `{analyzer && (… mode …)}` and
`{!analyzer && (idle placeholder)}`. -/
def renderScene (analyzer : Option Analyser) (mode : VisualizerMode) : RenderedScene :=
  match analyzer with
  | none => RenderedScene.idlePlaceholder
  | some _ => RenderedScene.visualizer mode

/-- Full teardown of the source recorded in `s` is present in trace `tr`:
the audio element was paused (and its URL revoked when it was a `blob:`
URL), every track of the media stream was stopped, and the audio context
was closed — each whenever the corresponding ref was non-null in `s`. -/
def fullTeardownOf (s : ControllerState) (tr : List Event) : Prop :=
  (∀ a, s.audioElementRef = some a →
      Event.pauseAudio a.src ∈ tr ∧
        (a.src.startsWith "blob:" = true → Event.revokeObjectURL a.src ∈ tr)) ∧
  (∀ m, s.mediaStreamRef = some m → ∀ t ∈ m.getTracks, Event.stopTrack t ∈ tr) ∧
  (∀ u : Unit, s.audioContextRef = some u → Event.closeContext ∈ tr)

lemma all_dropWhile (p q : Event → Bool) (l : List Event) (h : l.all q = true) :
    (l.dropWhile p).all q = true := by
  induction l with
  | nil => simp
  | cons a l ih =>
      simp only [List.all_cons, Bool.and_eq_true] at h
      by_cases hp : p a = true
      · simpa [List.dropWhile, hp] using ih h.2
      · simp [List.dropWhile, hp, List.all_cons, h.1, h.2]

lemma teardownPrecedes_of_parts (e₁ rest : List Event)
    (h₁ : e₁.all (fun e => !isConstructEvent e) = true)
    (h₂ : rest.all (fun e => !isTeardownEvent e) = true) :
    teardownPrecedesConstruction (e₁ ++ rest) = true := by
  induction e₁ with
  | nil =>
      simpa [teardownPrecedesConstruction] using
        all_dropWhile (fun e => !isConstructEvent e) (fun e => !isTeardownEvent e) rest h₂
  | cons e es ih =>
      simp only [List.all_cons, Bool.and_eq_true] at h₁
      have ih' := ih h₁.2
      simpa [teardownPrecedesConstruction, List.dropWhile, h₁.1] using ih'

lemma cleanupEvents_no_construct (s : ControllerState) :
    (cleanupEvents s).all (fun e => !isConstructEvent e) = true := by
  unfold cleanupEvents
  cases hae : s.audioElementRef with
  | none =>
      cases hms : s.mediaStreamRef with
      | none =>
          cases hac : s.audioContextRef <;>
            simp [isConstructEvent]
      | some m =>
          cases hac : s.audioContextRef <;>
            simp [isConstructEvent, List.all_map, Function.comp]
  | some a =>
      cases hms : s.mediaStreamRef with
      | none =>
          cases hac : s.audioContextRef <;>
            by_cases hb : a.src.startsWith "blob:" = true <;>
              simp [isConstructEvent, hb]
      | some m =>
          cases hac : s.audioContextRef <;>
            by_cases hb : a.src.startsWith "blob:" = true <;>
              simp [isConstructEvent, hb, List.all_map, Function.comp]

lemma cleanupEvents_full (s : ControllerState) : fullTeardownOf s (cleanupEvents s) := by
  refine ⟨?_, ?_, ?_⟩
  · intro a ha
    constructor
    · simp [cleanupEvents, ha]
    · intro hb
      simp [cleanupEvents, ha, hb]
  · intro m hm t ht
    simp only [cleanupEvents, hm, List.mem_append]
    exact Or.inl (Or.inr (List.mem_map_of_mem Event.stopTrack ht))
  · intro u hu
    simp [cleanupEvents, hu]

lemma fullTeardownOf_append (s : ControllerState) (tr tr' : List Event)
    (h : fullTeardownOf s tr) : fullTeardownOf s (tr ++ tr') := by
  obtain ⟨h₁, h₂, h₃⟩ := h
  refine ⟨?_, ?_, ?_⟩
  · intro a ha
    exact ⟨List.mem_append_left _ ((h₁ a ha).1),
      fun hb => List.mem_append_left _ ((h₁ a ha).2 hb)⟩
  · intro m hm t ht
    exact List.mem_append_left _ (h₂ m hm t ht)
  · intro u hu
    exact List.mem_append_left _ (h₃ u hu)

lemma handler_trace_ok (s : ControllerState) (rest : List Event)
    (hrest : rest.all (fun e => !isTeardownEvent e) = true) :
    teardownPrecedesConstruction (cleanupEvents s ++ rest) = true ∧
      fullTeardownOf s (cleanupEvents s ++ rest) :=
  ⟨teardownPrecedes_of_parts _ _ (cleanupEvents_no_construct s) hrest,
   fullTeardownOf_append s _ _ (cleanupEvents_full s)⟩

lemma handleFileChange_trace (f : AudioFile) (s : ControllerState) :
    (handleFileChange (some f) s).2 =
      cleanupEvents s ++ [Event.createContext, Event.createAnalyser, Event.connectSource] := by
  simp [handleFileChange, cleanupAudio, initAudioContext]

lemma handleMicInput_ok_trace (stream : MediaStream) (s : ControllerState) :
    (handleMicInput (Except.ok stream) s).2 =
      cleanupEvents s ++ [Event.createContext, Event.createAnalyser, Event.connectSource] := by
  simp [handleMicInput, cleanupAudio, initAudioContext]

lemma handleSystemAudio_ok_trace (stream : MediaStream) (s : ControllerState)
    (h : stream.audioTracks ≠ []) :
    (handleSystemAudio (Except.ok stream) s).2 =
      cleanupEvents s ++ [Event.createContext, Event.createAnalyser, Event.connectSource] := by
  have hlen : ¬ stream.audioTracks.length = 0 := by
    simpa [List.length_eq_zero] using h
  simp [handleSystemAudio, cleanupAudio, initAudioContext, hlen]

/-- C3: for every visualizer mode (bars, linear, sphere, wave), when the
analyzer is null the per-frame mapping function returns immediately without
mutating any element's scale, position, or color, and never throws: each
frame function applied to `none` yields `Except.ok` of the unchanged
scene. -/
theorem frame_noop_without_analyzer (hb hl hw : Option ℕ) (sb : BarsScene)
    (sl : LinearScene) (t : ℚ) (hs : Bool) (m : MeshState)
    (cq sq : ℚ → ℚ) (pq : ℚ) (sw : WaveScene) :
    barVisualizerFrame none hb sb = Except.ok sb ∧
    linearBarVisualizerFrame none hl sl = Except.ok sl ∧
    sphereVisualizerFrame none t hs m = Except.ok m ∧
    waveVisualizerFrame cq sq pq none hw sw = Except.ok sw :=
  ⟨rfl, rfl, rfl, rfl⟩

/-- C4: in radial-bars mode, for every frequency sample `v` in `[0, 255]`
the target scale equals `max(0.4, (v/255)*8)`, lying in `[0.4, 8]` without
hover; on the hovered element the target becomes `max(target, 12)`, hence
at least `12`. -/
theorem barTargetScale_bounds (v : ℕ) (hv : v ≤ 255) :
    barTargetScale (v : ℚ) false = max (4 / 10) ((v : ℚ) / 255 * 8) ∧
    (4 / 10 : ℚ) ≤ barTargetScale (v : ℚ) false ∧
    barTargetScale (v : ℚ) false ≤ 8 ∧
    barTargetScale (v : ℚ) true = max (barTargetScale (v : ℚ) false) 12 ∧
    (12 : ℚ) ≤ barTargetScale (v : ℚ) true := by
  have hv' : (v : ℚ) ≤ 255 := by exact_mod_cast hv
  refine ⟨rfl, le_max_left _ _, ?_, rfl, le_max_right _ _⟩
  have h8 : (v : ℚ) / 255 * 8 ≤ 8 := by nlinarith
  exact max_le (by norm_num) h8

/-- Witness for C4 at the concrete sample `v = 200`. -/
theorem barTargetScale_bounds_witness :
    (200 : ℕ) ≤ 255 ∧
    (barTargetScale ((200 : ℕ) : ℚ) false = max (4 / 10) (((200 : ℕ) : ℚ) / 255 * 8) ∧
      (4 / 10 : ℚ) ≤ barTargetScale ((200 : ℕ) : ℚ) false ∧
      barTargetScale ((200 : ℕ) : ℚ) false ≤ 8 ∧
      barTargetScale ((200 : ℕ) : ℚ) true = max (barTargetScale ((200 : ℕ) : ℚ) false) 12 ∧
      (12 : ℚ) ≤ barTargetScale ((200 : ℕ) : ℚ) true) :=
  ⟨by norm_num, barTargetScale_bounds 200 (by norm_num)⟩

/-- C5: one smoothing frame `lerp(old, target, f)` leaves the distance to
the target multiplied by exactly `1 - f` and never flips the sign of
`target - displayed`; iterating frames with constant target shrinks the
distance as `(1-f)^n`, so the displayed value converges monotonically
without overshoot, for every `f` in `(0, 1]` — and the code's factors
`0.15` (radial bars) and `0.2` (linear bars, sphere) lie in `(0, 1]`. -/
theorem lerp_smoothing_monotone (f old target : ℚ) (h0 : 0 < f) (h1 : f ≤ 1) :
    target - lerp old target f = (1 - f) * (target - old) ∧
    |target - lerp old target f| = (1 - f) * |target - old| ∧
    0 ≤ (target - lerp old target f) * (target - old) ∧
    |target - lerp old target f| ≤ |target - old| ∧
    (∀ n : ℕ, target - smoothIterate f target n old = (1 - f) ^ n * (target - old)) ∧
    (0 < barLerpFactor ∧ barLerpFactor ≤ 1) ∧
    (0 < linearLerpFactor ∧ linearLerpFactor ≤ 1) ∧
    (0 < sphereLerpFactor ∧ sphereLerpFactor ≤ 1) := by
  have hstep : target - lerp old target f = (1 - f) * (target - old) := by
    unfold lerp; ring
  have hf : (0 : ℚ) ≤ 1 - f := by linarith
  refine ⟨hstep, ?_, ?_, ?_, ?_, ?_, ?_, ?_⟩
  · rw [hstep, abs_mul, abs_of_nonneg hf]
  · rw [hstep]
    have := sq_nonneg (target - old)
    nlinarith
  · rw [hstep, abs_mul, abs_of_nonneg hf]
    have := abs_nonneg (target - old)
    nlinarith
  · intro n
    induction n with
    | zero => simp [smoothIterate]
    | succ n ih =>
        have hstep' : target - lerp (smoothIterate f target n old) target f
            = (1 - f) * (target - smoothIterate f target n old) := by
          unfold lerp; ring
        calc target - smoothIterate f target (n + 1) old
            = target - lerp (smoothIterate f target n old) target f := rfl
          _ = (1 - f) * (target - smoothIterate f target n old) := hstep'
          _ = (1 - f) * ((1 - f) ^ n * (target - old)) := by rw [ih]
          _ = (1 - f) ^ (n + 1) * (target - old) := by ring
  · exact ⟨by norm_num [barLerpFactor], by norm_num [barLerpFactor]⟩
  · exact ⟨by norm_num [linearLerpFactor], by norm_num [linearLerpFactor]⟩
  · exact ⟨by norm_num [sphereLerpFactor], by norm_num [sphereLerpFactor]⟩

/-- Witness for C5 with the radial-bars factor `f = 0.15`, `old = 2`,
`target = 10`. -/
theorem lerp_smoothing_monotone_witness :
    (0 : ℚ) < 15 / 100 ∧ (15 / 100 : ℚ) ≤ 1 ∧
    (10 : ℚ) - lerp 2 10 (15 / 100) = (1 - 15 / 100) * ((10 : ℚ) - 2) :=
  ⟨by norm_num, by norm_num,
    (lerp_smoothing_monotone (15 / 100) 2 10 (by norm_num) (by norm_num)).1⟩

/-- C6: in wave mode without hover, displacement is `((value - 128)/128)*6`
for every time-domain sample; exactly `0` at `value = 128`, exactly `-6` at
`value = 0`, and exactly `(127/128)*6 = 381/64 = 5.953125` at
`value = 255`. -/
theorem waveDisplacement_values :
    (∀ value : ℚ, waveDisplacement value = (value - 128) / 128 * 6) ∧
    waveDisplacement 128 = 0 ∧
    waveDisplacement 0 = -6 ∧
    waveDisplacement 255 = 381 / 64 ∧
    (381 / 64 : ℚ) = 127 / 128 * 6 ∧
    (381 / 64 : ℚ) = 5953125 / 1000000 := by
  refine ⟨fun value => rfl, ?_, ?_, ?_, ?_, ?_⟩ <;> norm_num [waveDisplacement]

/-- C7: in linear-bars mode, for every `i < 48` and non-empty buffer, the
sample index `floor((i/48) * len * 0.8)` is strictly below `0.8 * len` and
in particular in bounds (`< len`). -/
theorem linearSampleIndex_bounds (i len : ℕ) (hi : i < 48) (hlen : 0 < len) :
    ((linearSampleIndex i len : ℕ) : ℚ) < 8 / 10 * (len : ℚ) ∧
    linearSampleIndex i len < len := by
  have hi' : (i : ℚ) ≤ 47 := by exact_mod_cast Nat.lt_succ_iff.mp hi
  have hin : (0 : ℚ) ≤ (i : ℚ) := Nat.cast_nonneg i
  have hlen' : (0 : ℚ) < (len : ℚ) := by exact_mod_cast hlen
  have hcast : ((linearBarCount : ℕ) : ℚ) = 48 := by norm_num [linearBarCount]
  have h0 : (0 : ℚ) ≤ (i : ℚ) / ((linearBarCount : ℕ) : ℚ) * ((len : ℚ) * (8 / 10)) := by
    rw [hcast]; positivity
  have hlt : (i : ℚ) / ((linearBarCount : ℕ) : ℚ) * ((len : ℚ) * (8 / 10))
      < 8 / 10 * (len : ℚ) := by
    rw [hcast, div_mul_eq_mul_div, div_lt_iff₀ (by norm_num : (0 : ℚ) < 48)]
    nlinarith
  have hfl : ((linearSampleIndex i len : ℕ) : ℚ)
      ≤ (i : ℚ) / ((linearBarCount : ℕ) : ℚ) * ((len : ℚ) * (8 / 10)) := by
    unfold linearSampleIndex jsFloorNat
    set q := (i : ℚ) / ((linearBarCount : ℕ) : ℚ) * ((len : ℚ) * (8 / 10)) with hqdef
    have hfn : (0 : ℤ) ≤ ⌊q⌋ := Int.floor_nonneg.mpr h0
    have hle := Int.floor_le q
    rw [← Int.toNat_of_nonneg hfn] at hle
    exact_mod_cast hle
  have hmain := lt_of_le_of_lt hfl hlt
  refine ⟨hmain, ?_⟩
  have hup : (8 / 10 : ℚ) * (len : ℚ) ≤ (len : ℚ) := by nlinarith
  have : ((linearSampleIndex i len : ℕ) : ℚ) < (len : ℚ) := lt_of_lt_of_le hmain hup
  exact_mod_cast this

/-- Witness for C7 at `i = 47`, `len = 128`. -/
theorem linearSampleIndex_bounds_witness :
    (47 : ℕ) < 48 ∧ (0 : ℕ) < 128 ∧
    (((linearSampleIndex 47 128 : ℕ) : ℚ) < 8 / 10 * ((128 : ℕ) : ℚ) ∧
      linearSampleIndex 47 128 < 128) :=
  ⟨by norm_num, by norm_num, linearSampleIndex_bounds 47 128 (by norm_num) (by norm_num)⟩

/-- C9: the configured `fftSize = 256` gives `frequencyBinCount = 128`, and
the radial-bars index `floor((i/64) * (128/2))` equals `i` for every
`i < 64`: each bar reads its own distinct in-bounds bin of the lower half
of the spectrum. -/
theorem barSampleIndex_identity (i : ℕ) (hi : i < 64) :
    newAnalyser.fftSize = 256 ∧
    Analyser.frequencyBinCount newAnalyser = 128 ∧
    barSampleIndex i (Analyser.frequencyBinCount newAnalyser) = i ∧
    barSampleIndex i (Analyser.frequencyBinCount newAnalyser) <
      Analyser.frequencyBinCount newAnalyser := by
  have hfb : Analyser.frequencyBinCount newAnalyser = 128 := rfl
  have hid : barSampleIndex i 128 = i := by
    unfold barSampleIndex jsFloorNat
    have hq : (i : ℚ) / ((barCount : ℕ) : ℚ) * (((128 : ℕ) : ℚ) / 2) = (i : ℚ) := by
      simp only [barCount]
      push_cast
      ring
    rw [hq, Int.floor_natCast]
    exact Int.toNat_natCast i
  refine ⟨rfl, hfb, ?_, ?_⟩
  · rw [hfb]; exact hid
  · rw [hfb, hid]; omega

/-- Witness for C9 at `i = 63`. -/
theorem barSampleIndex_identity_witness :
    (63 : ℕ) < 64 ∧
    (newAnalyser.fftSize = 256 ∧
      Analyser.frequencyBinCount newAnalyser = 128 ∧
      barSampleIndex 63 (Analyser.frequencyBinCount newAnalyser) = 63 ∧
      barSampleIndex 63 (Analyser.frequencyBinCount newAnalyser) <
        Analyser.frequencyBinCount newAnalyser) :=
  ⟨by norm_num, barSampleIndex_identity 63 (by norm_num)⟩

/-- Concrete pre-switch state: a file source playing, with a live audio
element on a `blob:` URL, a captured stream and an open context. -/
def streamOld : MediaStream := { audioTracks := [{ id := 1 }], videoTracks := [] }

/-- Concrete granted microphone stream. -/
def streamMicGranted : MediaStream := { audioTracks := [{ id := 2 }], videoTracks := [] }

/-- Concrete granted display stream that carries audio. -/
def streamSysGranted : MediaStream :=
  { audioTracks := [{ id := 3 }], videoTracks := [{ id := 4 }] }

/-- Concrete granted display stream without any audio track. -/
def streamSysNoAudio : MediaStream := { audioTracks := [], videoTracks := [{ id := 5 }] }

/-- Concrete selected file. -/
def fileTrack : AudioFile := { name := "track.mp3" }

/-- Concrete controller state with an active file source. -/
def s0 : ControllerState :=
  { analyzer := some newAnalyser
    isPlaying := true
    duration := 180
    currentTime := 30
    inputMode := InputMode.file
    fileName := some "track"
    isMicActive := false
    isSystemActive := false
    visualizerMode := VisualizerMode.bars
    audioContextRef := some ()
    audioElementRef := some { src := "blob:track.mp3" }
    mediaStreamRef := some streamOld }

/-- C1: every source-switch handler (`handleFileChange`, `handleMicInput`,
`handleSystemAudio`) performs the full teardown of the previous source —
pausing the audio element, revoking its `blob:` URL, stopping all captured
tracks, closing the audio context — and every teardown effect in its trace
precedes the creation of the new audio context and analyser, so at most
one analysis pipeline is live at a time. -/
theorem sourceSwitch_teardown_before_construct (s : ControllerState)
    (f : AudioFile) (mic sys : MediaStream) (hsys : sys.audioTracks ≠ []) :
    (teardownPrecedesConstruction (handleFileChange (some f) s).2 = true ∧
      fullTeardownOf s (handleFileChange (some f) s).2) ∧
    (teardownPrecedesConstruction (handleMicInput (Except.ok mic) s).2 = true ∧
      fullTeardownOf s (handleMicInput (Except.ok mic) s).2) ∧
    (teardownPrecedesConstruction (handleSystemAudio (Except.ok sys) s).2 = true ∧
      fullTeardownOf s (handleSystemAudio (Except.ok sys) s).2) := by
  have hrest : ([Event.createContext, Event.createAnalyser, Event.connectSource].all
      fun e => !isTeardownEvent e) = true := rfl
  refine ⟨?_, ?_, ?_⟩
  · rw [handleFileChange_trace]
    exact handler_trace_ok s _ hrest
  · rw [handleMicInput_ok_trace]
    exact handler_trace_ok s _ hrest
  · rw [handleSystemAudio_ok_trace sys s hsys]
    exact handler_trace_ok s _ hrest

/-- Witness for C1 switching away from the concrete active state `s0`. -/
theorem sourceSwitch_teardown_before_construct_witness :
    streamSysGranted.audioTracks ≠ [] ∧
    ((teardownPrecedesConstruction (handleFileChange (some fileTrack) s0).2 = true ∧
        fullTeardownOf s0 (handleFileChange (some fileTrack) s0).2) ∧
      (teardownPrecedesConstruction (handleMicInput (Except.ok streamMicGranted) s0).2 = true ∧
        fullTeardownOf s0 (handleMicInput (Except.ok streamMicGranted) s0).2) ∧
      (teardownPrecedesConstruction (handleSystemAudio (Except.ok streamSysGranted) s0).2 = true ∧
        fullTeardownOf s0 (handleSystemAudio (Except.ok streamSysGranted) s0).2)) :=
  ⟨by decide,
    sourceSwitch_teardown_before_construct s0 fileTrack streamMicGranted streamSysGranted
      (by decide)⟩

/-- C2 counterexample: `cleanupAudio` never clears the `analyzer` React
state (only `initAudioContext` ever sets it), so after cleaning up the
concrete active state `s0` an analysis node is still observed and the
visual layer still renders the active visualizer, not the idle
placeholder — contradicting the claim that every cleanup returns the
visual layer to the idle placeholder. -/
theorem cleanup_keeps_analyzer_counterexample :
    (cleanupAudio s0).1.analyzer = some newAnalyser ∧
    renderScene (cleanupAudio s0).1.analyzer VisualizerMode.bars =
      RenderedScene.visualizer VisualizerMode.bars ∧
    renderScene (cleanupAudio s0).1.analyzer VisualizerMode.bars ≠
      RenderedScene.idlePlaceholder := by
  refine ⟨rfl, rfl, ?_⟩
  decide

/-- C2 amended: after `cleanupAudio` runs, the activity flags are false and
the audio element, media stream and audio context refs are all null, but
the `analyzer` state is left unchanged; hence the visual layer shows the
idle placeholder after cleanup exactly when the analysis node was already
absent, and otherwise keeps rendering the active visualizer. -/
theorem cleanupAudio_resets_refs_not_analyzer (s : ControllerState)
    (mode : VisualizerMode) :
    (cleanupAudio s).1.isPlaying = false ∧
    (cleanupAudio s).1.isMicActive = false ∧
    (cleanupAudio s).1.isSystemActive = false ∧
    (cleanupAudio s).1.audioElementRef = none ∧
    (cleanupAudio s).1.mediaStreamRef = none ∧
    (cleanupAudio s).1.audioContextRef = none ∧
    (cleanupAudio s).1.analyzer = s.analyzer ∧
    (renderScene (cleanupAudio s).1.analyzer mode = RenderedScene.idlePlaceholder ↔
      s.analyzer = none) := by
  refine ⟨rfl, rfl, rfl, rfl, rfl, rfl, rfl, ?_⟩
  cases h : s.analyzer <;> simp [cleanupAudio, renderScene, h]

/-- C8: a granted display capture with zero audio tracks aborts the
attempt: every captured track is stopped, no audio context or analyser is
created anywhere in the trace, and the handler leaves `analyzer` unchanged
and the context ref null — no analysis node results. -/
theorem systemAudio_no_audio_track_aborts (s : ControllerState) (sys : MediaStream)
    (h : sys.audioTracks = []) :
    (handleSystemAudio (Except.ok sys) s).1.analyzer = s.analyzer ∧
    (handleSystemAudio (Except.ok sys) s).1.audioContextRef = none ∧
    (∀ t ∈ sys.getTracks, Event.stopTrack t ∈ (handleSystemAudio (Except.ok sys) s).2) ∧
    (handleSystemAudio (Except.ok sys) s).2.all (fun e => !isConstructEvent e) = true := by
  have hlen : sys.audioTracks.length = 0 := by rw [h]; rfl
  have hres : handleSystemAudio (Except.ok sys) s =
      ((cleanupAudio s).1,
        cleanupEvents s ++ [Event.alertUser noAudioSharedMsg] ++
          sys.getTracks.map Event.stopTrack) := by
    simp [handleSystemAudio, cleanupAudio, hlen]
  refine ⟨?_, ?_, ?_, ?_⟩
  · rw [hres]
    rfl
  · rw [hres]
    rfl
  · intro t ht
    rw [hres]
    exact List.mem_append_right _ (List.mem_map_of_mem Event.stopTrack ht)
  · rw [hres]
    simp only [List.all_append, Bool.and_eq_true]
    refine ⟨⟨cleanupEvents_no_construct s, rfl⟩, ?_⟩
    simp [List.all_map, Function.comp, isConstructEvent]

/-- Witness for C8: the concrete no-audio display stream against `s0`. -/
theorem systemAudio_no_audio_track_aborts_witness :
    streamSysNoAudio.audioTracks = [] ∧
    ((handleSystemAudio (Except.ok streamSysNoAudio) s0).1.analyzer = s0.analyzer ∧
      (handleSystemAudio (Except.ok streamSysNoAudio) s0).1.audioContextRef = none ∧
      (∀ t ∈ streamSysNoAudio.getTracks,
        Event.stopTrack t ∈ (handleSystemAudio (Except.ok streamSysNoAudio) s0).2) ∧
      (handleSystemAudio (Except.ok streamSysNoAudio) s0).2.all
        (fun e => !isConstructEvent e) = true) :=
  ⟨rfl, systemAudio_no_audio_track_aborts s0 streamSysNoAudio rfl⟩

/-- C10: `cleanupAudio` is idempotent: one call nulls all three refs and
clears the activity flags, and an immediately following second call
performs no side effect at all (empty event trace — no pause, URL
revocation, track stop or context close) and leaves the state unchanged. -/
theorem cleanupAudio_idempotent (s : ControllerState) :
    (cleanupAudio s).1.audioElementRef = none ∧
    (cleanupAudio s).1.mediaStreamRef = none ∧
    (cleanupAudio s).1.audioContextRef = none ∧
    (cleanupAudio s).1.isPlaying = false ∧
    (cleanupAudio s).1.isMicActive = false ∧
    (cleanupAudio s).1.isSystemActive = false ∧
    cleanupAudio (cleanupAudio s).1 = ((cleanupAudio s).1, []) :=
  ⟨rfl, rfl, rfl, rfl, rfl, rfl, rfl⟩

end AudioVis
